import Mathlib

/-!
# ConcertWithFriends — verification of the spec's claims against the source

Shallow embedding of the Rust sources of `mystborn/ConcertWithFriends`:
`src/ticketmaster/shared.rs`, `src/ticketmaster/events.rs`, `src/settings.rs`,
`src/mvc/utils.rs` and the static-file handler of `src/main.rs` /
`src/mvc/controllers/basics.rs`.

Modelling conventions:
* `serde_json::Value` becomes the inductive `Json`; objects are association
  lists looked up by first match (serde_json maps have unique keys).
* A Rust function that can panic (`unwrap` on a missing/ill-typed value) is
  embedded with result type `Option _`; `none` denotes the panic, `some`
  a normal return.
* `Result<T, E>` becomes `Except E T`.
* Machine-integer casts (`i64 as u32`) are modelled on `Int`/`Nat` with an
  explicit `% 2^32`.
-/

set_option autoImplicit false

/-- Embedding of `serde_json::value::Value`.  Numbers are restricted to the
integer-valued ones (`num`) plus a marker (`numNonInt`) for any number on
which `as_i64` fails; this is all the parser distinguishes. -/
inductive Json where
  | null : Json
  | bool : Bool → Json
  | num : Int → Json
  | numNonInt : Json
  | str : String → Json
  | arr : List Json → Json
  | obj : List (String × Json) → Json

/-- First-match lookup in an association list: the model of both
`serde_json::Map::get` and `HashMap::get` (keys are unique in both). -/
def mapGet (m : List (String × Json)) (key : String) : Option Json :=
  match m with
  | [] => none
  | (k, v) :: rest => if k = key then some v else mapGet rest key

/-- `Value::get(key)`: `Some` only when the value is an object holding the key. -/
def Json.jget (j : Json) (key : String) : Option Json :=
  match j with
  | .obj kvs => mapGet kvs key
  | _ => none

/-- `Value::as_str()`. -/
def Json.asStr (j : Json) : Option String :=
  match j with
  | .str s => some s
  | _ => none

/-- `Value::as_array()`. -/
def Json.asArr (j : Json) : Option (List Json) :=
  match j with
  | .arr l => some l
  | _ => none

/-- `Value::as_object()`. -/
def Json.asObj (j : Json) : Option (List (String × Json)) :=
  match j with
  | .obj kvs => some kvs
  | _ => none

/-- `Value::as_i64()`: succeeds exactly on integer-valued numbers. -/
def Json.asI64 (j : Json) : Option Int :=
  match j with
  | .num n => some n
  | _ => none

/-- Rust `i64 as u32`: keep the low 32 bits. -/
def i64AsU32 (n : Int) : Nat :=
  (n % (2 ^ 32 : Int)).toNat

/-! ## `src/ticketmaster/shared.rs` -/

/-- `API_PREFIX` from `shared.rs` (renamed `API_BASE` here). -/
def API_BASE : String := "https://app.ticketmaster.com/discovery/v2/"

/-- `TicketMasterError` from `shared.rs`. -/
structure TicketMasterError where
  message : Option String
  deriving DecidableEq, Repr

/-- `TicketMasterError::new`. -/
def TicketMasterError.new (message : Option String) : TicketMasterError :=
  ⟨message⟩

/-! ## `src/ticketmaster/events.rs` — data model -/

/-- `EVENT_ENDPOINT` from `events.rs` (declared in the source, never used by it). -/
def EVENT_ENDPOINT : String := "events.json?"

/-- `EventParams`. -/
structure EventParams where
  api_key : String
  location : Option String
  search_terms : Option String
  deriving DecidableEq, Repr

/-- `EventImage`. -/
structure EventImage where
  link : String
  width : Option Nat
  height : Option Nat
  deriving DecidableEq, Repr

/-- `EventLocation`. -/
structure EventLocation where
  area_name : Option String
  address_line_1 : Option String
  address_line_2 : Option String
  address_line_3 : Option String
  city : Option String
  state : Option String
  country : Option String × Option String
  postal_code : Option String
  name : Option String
  deriving DecidableEq, Repr

/-- `Event` (`end` is a Lean keyword, rendered `end_`). -/
structure Event where
  name : String
  id : String
  url : String
  images : List EventImage
  description : Option String
  additional_info : Option String
  start : Option String
  end_ : Option String
  info : Option String
  please_note : Option String
  location : Option EventLocation
  deriving DecidableEq, Repr

/-- `EventResult`. -/
structure EventResult where
  next_page : Option String
  prev_page : Option String
  events : List Event
  deriving DecidableEq, Repr

/-- `EventParams::new` (`events.rs` lines 61–72). -/
def EventParams.new (api_key : String) (search_terms : Option String)
    (location : Option String) : Except TicketMasterError EventParams :=
  if search_terms.isNone && location.isNone then
    .error (TicketMasterError.new none)
  else
    .ok ⟨api_key, location, search_terms⟩

/-- The endpoint string built by `get_events` (`events.rs` lines 75–94):
start from the API base, append the search terms if present, then the
location if present, with `&` between them when both are present.  Neither
`EVENT_ENDPOINT` nor `args.api_key` is ever appended by the source. -/
def build_endpoint (args : EventParams) : String :=
  let e := API_BASE
  let (e, has_argument) :=
    match args.search_terms with
    | some search => (e ++ search, true)
    | none => (e, false)
  match args.location with
  | some location => ((if has_argument then e ++ "&" else e) ++ location, true).1
  | none => e

/-- `EVENT_PARSE_ERROR` from `events.rs`. -/
def EVENT_PARSE_ERROR : String := "Failed to parse response from TicketMaster API"

/-! ## `src/ticketmaster/events.rs` — parsing

`none` models a panic (`unwrap` on a missing or ill-typed value). -/

/-- The recurring pattern `match v.get(key) { Some(text) =>
Some(text.as_str().unwrap().to_string()), None => None }`: an absent key is
`None`, a present non-string value is a panic. -/
def parseOptStr (v : Json) (key : String) : Option (Option String) :=
  match v.jget key with
  | some text => (text.asStr).map some
  | none => some none

/-- Date extraction for one of the fields `"start"` / `"end"` of the
`dates` object (`events.rs` lines 191–229, where this block appears twice):
prefer `dateTime`, fall back to `localDate`, else `None`; a present
non-string value panics. -/
def parseDateField (event : Json) (field : String) : Option (Option String) :=
  match event.jget "dates" with
  | some dates =>
    match dates.jget field with
    | some sub =>
      match sub.jget "dateTime" with
      | some date_time => (date_time.asStr).map some
      | none =>
        match sub.jget "localDate" with
        | some date => (date.asStr).map some
        | none => some none
    | none => some none
  | none => some none

/-- `parse_event_location` (`events.rs` lines 251–349). -/
def parse_event_location (event : Json) : Option (Option EventLocation) :=
  match event.jget "place" with
  | none => some none
  | some place => do
    let area ←
      match place.jget "area" with
      | some obj => parseOptStr obj "name"
      | none => some none
    let lines ←
      match place.jget "address" with
      | some inner => do
        let line1 ← parseOptStr inner "line1"
        let line2 ← parseOptStr inner "line2"
        let line3 ← parseOptStr inner "line3"
        pure (line1, line2, line3)
      | none => some (none, none, none)
    let city ←
      match place.jget "city" with
      | some inner => parseOptStr inner "name"
      | none => some none
    let state ←
      match place.jget "state" with
      | some inner => parseOptStr inner "name"
      | none => some none
    let countryPair ←
      match place.jget "country" with
      | some inner => do
        let country ← parseOptStr inner "name"
        let country_code ← parseOptStr inner "countryCode"
        pure (country, country_code)
      | none => some (none, none)
    let postal_code ← parseOptStr place "postal_code"
    let name ← parseOptStr place "name"
    pure (some
      { area_name := area
        address_line_1 := lines.1
        address_line_2 := lines.2.1
        address_line_3 := lines.2.2
        city := city
        state := state
        country := countryPair
        postal_code := postal_code
        name := name })

/-- One iteration of the loop body of `parse_event_images`
(`events.rs` lines 360–381).  `some none` models `continue` (entry skipped
because `url` is absent); `some (some img)` models a pushed image; `none`
models a panic (`url` present but not a string, or `width`/`height` present
but not an integer — the `continue` happens before `width`/`height` are
read, matching the source order). -/
def parseOneImage (image : Json) : Option (Option EventImage) :=
  match image.jget "url" with
  | none => some none
  | some text => do
    let url ← text.asStr
    let width ←
      match image.jget "width" with
      | some w => (w.asI64).map (fun n => some (i64AsU32 n))
      | none => some none
    let height ←
      match image.jget "height" with
      | some h => (h.asI64).map (fun n => some (i64AsU32 n))
      | none => some none
    pure (some { link := url, width := width, height := height })

/-- The loop of `parse_event_images` over the entries of the `images` array. -/
def parseImagesLoop : List Json → Option (List EventImage)
  | [] => some []
  | image :: rest => do
    let entry ← parseOneImage image
    let tail ← parseImagesLoop rest
    match entry with
    | none => pure tail
    | some img => pure (img :: tail)

/-- `parse_event_images` (`events.rs` lines 351–384): an absent `images` key
yields the empty list; a present non-array value panics. -/
def parse_event_images (event : Json) : Option (List EventImage) :=
  match event.jget "images" with
  | none => some []
  | some image_val => do
    let images_array ← image_val.asArr
    parseImagesLoop images_array

/-- One iteration of the loop body of `parse_events_array`
(`events.rs` lines 178–246): required fields `name`, `id*` (sic), `url`
are unwrapped with no fallback. -/
def parseEvent (event : Json) : Option Event := do
  let name ← (event.jget "name").bind Json.asStr
  let id ← (event.jget "id*").bind Json.asStr
  let url ← (event.jget "url").bind Json.asStr
  let description ← parseOptStr event "description"
  let additional_info ← parseOptStr event "additionalInfo"
  let start ← parseDateField event "start"
  let end_ ← parseDateField event "end"
  let info ← parseOptStr event "info"
  let please_note ← parseOptStr event "pleaseNote"
  let location ← parse_event_location event
  let images ← parse_event_images event
  pure { name := name, id := id, url := url, images := images
         description := description, additional_info := additional_info
         start := start, end_ := end_, info := info
         please_note := please_note, location := location }

/-- `parse_events_array` (`events.rs` lines 175–249): the loop pushes one
`Event` per entry; any panic inside an iteration aborts the whole call. -/
def parse_events_array : List Json → Option (List Event)
  | [] => some []
  | event :: rest => do
    let ev ← parseEvent event
    let evs ← parse_events_array rest
    pure (ev :: evs)

/-- `parse_links` (`events.rs` lines 136–173): a missing or non-object
`_links` value yields `(None, None)` without error; a present `next`/`prev`
that is not an object panics, as does a non-string `href`. -/
def parse_links (links : Option Json) : Option (Option String × Option String) :=
  match links with
  | none => some (none, none)
  | some l =>
    match l.asObj with
    | none => some (none, none)
    | some links_obj => do
      let next_page ←
        match mapGet links_obj "next" with
        | none => some none
        | some next_obj => do
          let o ← next_obj.asObj
          match mapGet o "href" with
          | none => pure none
          | some next_href => (next_href.asStr).map some
      let prev_page ←
        match mapGet links_obj "prev" with
        | none => some none
        | some prev_obj => do
          let o ← prev_obj.asObj
          match mapGet o "href" with
          | none => pure none
          | some prev_href => (prev_href.asStr).map some
      pure (next_page, prev_page)

/-- `parse_event_response` (`events.rs` lines 113–134).  The input is the
deserialized top-level object (`HashMap<String, Value>`).  Note that
`parse_links` runs before the `_embedded` checks, and that a present
non-object `_embedded`, or a present non-array `events`, panics
(`as_object().unwrap()` / `as_array().unwrap()`). -/
def parse_event_response (event : List (String × Json)) :
    Option (Except TicketMasterError EventResult) := do
  let links := mapGet event "_links"
  let pages ← parse_links links
  match mapGet event "_embedded" with
  | none => pure (.error (TicketMasterError.new (some EVENT_PARSE_ERROR)))
  | some embedded_container => do
    let embObj ← embedded_container.asObj
    match mapGet embObj "events" with
    | none => pure (.error (TicketMasterError.new (some EVENT_PARSE_ERROR)))
    | some events_array_val => do
      let events_array ← events_array_val.asArr
      let events ← parse_events_array events_array
      pure (.ok { next_page := pages.1, prev_page := pages.2, events := events })

/-! ## `src/settings.rs` -/

/-- The `ENV` enum. -/
inductive ENV where
  | Development : ENV
  | Testing : ENV
  | Production : ENV
  deriving DecidableEq, Repr

/-- `str::to_lowercase`, embedded as a character-wise map (coincides with
the Rust function on the ASCII strings the match below distinguishes). -/
def strToLower (s : String) : String :=
  String.mk (s.toList.map Char.toLower)

/-- `impl From<&str> for ENV` (`settings.rs` lines 67–75): lowercase the
input, accept `dev`/`development` and `prod`/`production`, and send every
other string to `Testing`. -/
def ENV.fromStr (env : String) : ENV :=
  match strToLower env with
  | "dev" | "development" => ENV.Development
  | "prod" | "production" => ENV.Production
  | _ => ENV.Testing

/-! ## `src/mvc/utils.rs`

HTTP status codes are modelled as `Nat`.  The outcomes of the three
fallible template-engine steps (`acquire_env`, `get_template`, `render`)
are supplied by a `TemplateOracle`, and the functions below are the
source's control flow over those outcomes. -/

/-- `ERROR_500_DEBUG_START` from `utils.rs`. -/
def ERROR_500_DEBUG_START : String :=
  "\n<!doctype html>\n<html>\n    <head>\n        <title>Concert With Friends - 500 Error</title>\n    </head>\n<body>\n<h1>Status Code 500: Internal Server Error</h1>\n<div>\n<para>\n"

/-- `ERROR_500_DEBUG_END` from `utils.rs`. -/
def ERROR_500_DEBUG_END : String :=
  "\n</para>\n</div>\n</body>\n</html>\n"

/-- `ERROR_500_PROD` from `utils.rs`: a fixed page mentioning no error detail. -/
def ERROR_500_PROD : String :=
  "\n<!doctype html>\n<html>\n    <head>\n        <title>Concert With Friends - 500 Error</title>\n    </head>\n<body>\n<h1>Status Code 500: Internal Server Error</h1>\n</body>\n</html>\n"

/-- Modelled from the spec: the template file `static/html/internal_error.j2`
is part of this repository but is not under `src/`; per the spec the
production error page "must not leak internals", so its rendered body is a
fixed page when the `debug` context flag is false. -/
def INTERNAL_ERROR_PAGE_PROD : String :=
  "<h1>Status Code 500: Internal Server Error</h1>"

/-- Modelled from the spec: the debug rendering of `internal_error.j2`
"may include the underlying error message". -/
def INTERNAL_ERROR_PAGE_DEBUG_START : String :=
  "<h1>Status Code 500: Internal Server Error</h1> "

/-- Modelled from the spec: rendering `internal_error.j2` with the context
`debug => cfg!(debug_assertions), error_message => ...` that
`get_error_500` passes it. -/
def renderInternalErrorTemplate (debug : Bool) (error_message : String) : String :=
  if debug then INTERNAL_ERROR_PAGE_DEBUG_START ++ error_message
  else INTERNAL_ERROR_PAGE_PROD

/-- Outcomes of the template-engine calls made during one
`render_template_ctx` call: whether `acquire_env` succeeds, whether the
requested template is found (with the error message when not), the result
of rendering it, and the corresponding outcomes for `internal_error.j2`
inside `get_error_500`. -/
structure TemplateOracle where
  acquireOk : Bool
  mainFound : Bool
  mainErrMsg : String
  mainRender : Except String String
  errTemplateFound : Bool
  errTemplateErrMsg : String
  errTemplateRenderOk : Bool
  errTemplateRenderMsg : String

/-- `internal_error` (`utils.rs` lines 63–84): `None` and the `Err` case in
a production (non-debug) build both produce the fixed `ERROR_500_PROD`
page; in a debug build the `Err` case embeds the error message. -/
def internal_error (debug : Bool) (response : Option (Except String String)) :
    Nat × String :=
  match response with
  | some value =>
    (500,
      match value with
      | .ok display => display
      | .error err =>
        if debug then ERROR_500_DEBUG_START ++ err ++ ERROR_500_DEBUG_END
        else ERROR_500_PROD)
  | none => (500, ERROR_500_PROD)

/-- `get_error_500` (`utils.rs` lines 151–172): try to render
`internal_error.j2` with the error message in context; on any failure fall
back to `internal_error`. -/
def get_error_500 (debug : Bool) (o : TemplateOracle) (errMsg : String) :
    Nat × String :=
  if o.errTemplateFound then
    internal_error debug (some
      (if o.errTemplateRenderOk then .ok (renderInternalErrorTemplate debug errMsg)
       else .error o.errTemplateRenderMsg))
  else
    internal_error debug (some (.error o.errTemplateErrMsg))

/-- `render_template_ctx` (`utils.rs` lines 120–149): acquire the
environment, look the template up, render it; each failure is collapsed
into a `(500, body)` pair, success into `(200, body)`. -/
def render_template_ctx (debug : Bool) (o : TemplateOracle) : Nat × String :=
  if o.acquireOk then
    if o.mainFound then
      match o.mainRender with
      | .ok value => (200, value)
      | .error _ => internal_error debug none
    else
      get_error_500 debug o o.mainErrMsg
  else
    internal_error debug none

/-! ## Static file handler (`src/main.rs` lines 109–127 /
`src/mvc/controllers/basics.rs` lines 15–33)

The handler computes `format!("static/{}", path.trim_start_matches('/'))`
and hands that relative path to `std::fs::read_to_string`.  To talk about
which file the operating system then reads, we model lexical relative-path
resolution: split on `/`, drop empty and `.` segments, and resolve `..`
against the preceding segment (`none` when `..` climbs above the working
directory). -/

/-- `str::trim_start_matches('/')`: drop every leading slash. -/
def trim_start_slashes (s : String) : String :=
  String.mk (s.toList.dropWhile (fun c => c == '/'))

/-- The path built by the handler: `format!("static/{}", ...)`. -/
def static_file_path (path : String) : String :=
  "static/" ++ trim_start_slashes path

/-- Split a character list on `/`. -/
def segsAux : List Char → List Char → List String
  | [], acc => [String.mk acc.reverse]
  | c :: rest, acc =>
    if c = '/' then String.mk acc.reverse :: segsAux rest []
    else segsAux rest (c :: acc)

/-- The meaningful segments of a path: split on `/`, dropping empty and `.`
segments. -/
def pathSegments (p : String) : List String :=
  (segsAux p.toList []).filter (fun s => s != "" && s != ".")

/-- Resolve `..` segments against an accumulator of already-resolved
segments (held reversed); `none` when `..` climbs above the start. -/
def resolveDotsAux : List String → List String → Option (List String)
  | acc, [] => some acc.reverse
  | acc, seg :: rest =>
    if seg = ".." then
      match acc with
      | [] => none
      | _ :: accRest => resolveDotsAux accRest rest
    else
      resolveDotsAux (seg :: acc) rest

/-- Lexical resolution of a relative path, as the operating system performs
it on the path given to `read_to_string`: `none` when the path climbs above
the working directory. -/
def resolve_relative_path (p : String) : Option (List String) :=
  resolveDotsAux [] (pathSegments p)

/-- Whether the file the handler reads stays inside the `static/` root:
the resolved path must begin with the `static` segment. -/
def stays_under_static_root (p : String) : Bool :=
  match resolve_relative_path p with
  | some (root :: _) => root == "static"
  | some [] => false
  | none => false

/-! ## Claims -/

/-- C1: the claim states that `get_events` issues its request to the fixed
API path `https://app.ticketmaster.com/discovery/v2/events.json?` followed
by the query terms and the API key.  Evaluating the endpoint the source
actually builds at `EventParams { api_key: "APIKEY123", search_terms:
Some("keyword=foo"), location: None }` shows that the request URL is the
bare API base followed by the query terms: the `events.json?` endpoint
segment (the unused `EVENT_ENDPOINT` constant) is never appended, and the
API key never occurs in the URL. -/
theorem C1_get_events_endpoint_evaluation :
    build_endpoint ⟨"APIKEY123", none, some "keyword=foo"⟩ =
      "https://app.ticketmaster.com/discovery/v2/keyword=foo" ∧
    build_endpoint ⟨"APIKEY123", none, some "keyword=foo"⟩ ≠
      API_BASE ++ EVENT_ENDPOINT ++ "keyword=foo" ∧
    build_endpoint ⟨"APIKEY123", some "city=Seattle", some "keyword=foo"⟩ =
      "https://app.ticketmaster.com/discovery/v2/keyword=foo&city=Seattle" := by
  refine ⟨rfl, by decide, rfl⟩

/-- C4: `EventParams::new` fails with the no-criteria domain error (the
message-less `TicketMasterError`) exactly when both `search_terms` and
`location` are `None`; with at least one of them set it succeeds and the
parameters hold the given `api_key`, `search_terms` and `location`
unchanged. -/
theorem C4_event_params_new (api_key : String)
    (search_terms location : Option String) :
    (search_terms = none ∧ location = none →
      EventParams.new api_key search_terms location =
        .error (TicketMasterError.new none)) ∧
    (search_terms ≠ none ∨ location ≠ none →
      EventParams.new api_key search_terms location =
        .ok ⟨api_key, location, search_terms⟩) := by
  constructor
  · rintro ⟨rfl, rfl⟩
    rfl
  · intro h
    cases search_terms <;> cases location <;> simp_all [EventParams.new]

/-- Witness for C4 at concrete inputs. -/
theorem C4_event_params_new_witness :
    EventParams.new "key" none none = .error (TicketMasterError.new none) ∧
    EventParams.new "key" (some "keyword=x") none =
      .ok ⟨"key", none, some "keyword=x"⟩ := by
  exact ⟨(C4_event_params_new "key" none none).1 ⟨rfl, rfl⟩,
    (C4_event_params_new "key" (some "keyword=x") none).2 (Or.inl (by simp))⟩

/-- C8: the claim states that path traversal is rejected or neutralized so
that no file outside `static/` is ever served.  Evaluating the handler's
path construction at the captured wildcard `../../etc/passwd` (the request
`/static/../../etc/passwd`): the handler reads
`static/../../etc/passwd`, which resolves above the working directory and
outside the static root, while an ordinary path stays inside it — the
source performs only the naive prefix concatenation and no traversal
check. -/
theorem C8_static_path_traversal_evaluation :
    static_file_path "../../etc/passwd" = "static/../../etc/passwd" ∧
    resolve_relative_path (static_file_path "../../etc/passwd") = none ∧
    stays_under_static_root (static_file_path "../../etc/passwd") = false ∧
    stays_under_static_root (static_file_path "css/style.css") = true := by
  exact ⟨rfl, rfl, rfl, rfl⟩

/-- C9: conversion of an environment-name string to `ENV` matches
`Development`, `Testing` and `Production` case-insensitively, accepts the
abbreviations `dev` and `prod`, and maps every unrecognized string to
`Testing` instead of failing. -/
theorem C9_env_from_str :
    ENV.fromStr "Development" = ENV.Development ∧
    ENV.fromStr "DEVELOPMENT" = ENV.Development ∧
    ENV.fromStr "dEv" = ENV.Development ∧
    ENV.fromStr "Production" = ENV.Production ∧
    ENV.fromStr "pRoD" = ENV.Production ∧
    ENV.fromStr "Testing" = ENV.Testing ∧
    ENV.fromStr "tEsTiNg" = ENV.Testing ∧
    (∀ s : String, strToLower s ≠ "dev" → strToLower s ≠ "development" →
      strToLower s ≠ "prod" → strToLower s ≠ "production" →
      ENV.fromStr s = ENV.Testing) := by
  refine ⟨by decide, by decide, by decide, by decide, by decide, by decide,
    by decide, ?_⟩
  intro s h1 h2 h3 h4
  unfold ENV.fromStr
  split <;> simp_all

/-- Witness for C9: an unrecognized string falls back to `Testing`. -/
theorem C9_env_from_str_witness : ENV.fromStr "Staging" = ENV.Testing := by
  exact C9_env_from_str.2.2.2.2.2.2.2 "Staging" (by decide) (by decide)
    (by decide) (by decide)

/-- C2: extraction of the required per-event fields `name`, `id` and `url`
has no fallback: for an event object missing one of them — in particular
any object carrying its identifier under the key `id` instead of the
truncated key `id*` the source reads — `parse_events_array` does not
return normally but propagates the unwrap panic (modelled as `none`),
never a typed parse error. -/
theorem C2_required_fields_unwrap_panic (ev : Json) (rest : List Json) :
    (ev.jget "name" = none → parse_events_array (ev :: rest) = none) ∧
    (∀ s, ev.jget "name" = some (Json.str s) → ev.jget "id*" = none →
      parse_events_array (ev :: rest) = none) ∧
    (∀ s t, ev.jget "name" = some (Json.str s) →
      ev.jget "id*" = some (Json.str t) → ev.jget "url" = none →
      parse_events_array (ev :: rest) = none) := by
  refine ⟨?_, ?_, ?_⟩
  · intro h
    simp [parse_events_array, parseEvent, h, Option.bind]
  · intro s hn hi
    simp [parse_events_array, parseEvent, hn, hi, Json.asStr, Option.bind]
  · intro s t hn hi hu
    simp [parse_events_array, parseEvent, hn, hi, hu, Json.asStr, Option.bind]

/-- Witness for C2: an event object carrying its identifier under `id`
rather than `id*` makes `parse_events_array` panic. -/
theorem C2_required_fields_unwrap_panic_witness :
    parse_events_array
      [Json.obj [("name", Json.str "Show"), ("id", Json.str "123"),
        ("url", Json.str "http://x")]] = none := by
  exact (C2_required_fields_unwrap_panic
    (Json.obj [("name", Json.str "Show"), ("id", Json.str "123"),
      ("url", Json.str "http://x")]) []).2.1 "Show" rfl rfl

/-- C10: whenever `parse_events_array` returns normally, the resulting
vector has exactly one `Event` per entry of the input array, in the same
order: position `i` of the output is the parse of position `i` of the
input, and no entry is filtered out, merged or reordered. -/
theorem C10_one_event_per_entry (arr : List Json) (evs : List Event)
    (h : parse_events_array arr = some evs) :
    evs.length = arr.length ∧
    ∀ i : Nat, evs.get? i = (arr.get? i).bind parseEvent := by
  induction arr generalizing evs with
  | nil =>
    simp only [parse_events_array, Option.some.injEq] at h
    subst h
    simp
  | cons e rest ih =>
    rw [parse_events_array] at h
    cases he : parseEvent e with
    | none => rw [he] at h; simp [Option.bind] at h
    | some ev =>
      rw [he] at h
      cases hr : parse_events_array rest with
      | none => rw [hr] at h; simp [Option.bind] at h
      | some tail =>
        rw [hr] at h
        injection h with h3
        subst h3
        obtain ⟨hlen, hget⟩ := ih tail hr
        refine ⟨by simp [hlen], ?_⟩
        intro i
        cases i with
        | zero => simp [he]
        | succ n => simpa using hget n

/-- Witness for C10 on a concrete two-entry array. -/
theorem C10_one_event_per_entry_witness :
    ([{ name := "A", id := "1", url := "u1", images := [],
        description := none, additional_info := none, start := none,
        end_ := none, info := none, please_note := none, location := none },
      { name := "B", id := "2", url := "u2", images := [],
        description := none, additional_info := none, start := none,
        end_ := none, info := none, please_note := none, location := none }] :
      List Event).length =
      ([Json.obj [("name", Json.str "A"), ("id*", Json.str "1"),
          ("url", Json.str "u1")],
        Json.obj [("name", Json.str "B"), ("id*", Json.str "2"),
          ("url", Json.str "u2")]] : List Json).length ∧
    ∀ i : Nat,
      ([{ name := "A", id := "1", url := "u1", images := [],
          description := none, additional_info := none, start := none,
          end_ := none, info := none, please_note := none, location := none },
        { name := "B", id := "2", url := "u2", images := [],
          description := none, additional_info := none, start := none,
          end_ := none, info := none, please_note := none, location := none }] :
        List Event).get? i =
      (([Json.obj [("name", Json.str "A"), ("id*", Json.str "1"),
          ("url", Json.str "u1")],
         Json.obj [("name", Json.str "B"), ("id*", Json.str "2"),
          ("url", Json.str "u2")]] : List Json).get? i).bind parseEvent := by
  exact C10_one_event_per_entry _ _ rfl

/-- C3 counterexample: the claim states that every document in which
`_embedded` is present but `_embedded.events` is absent gets a
domain-specific parse error.  At the concrete document
`{"_embedded": 0}` — `_embedded` present, `events` absent — the source
instead panics on `as_object().unwrap()` (modelled `none`): no error value
is returned at all. -/
theorem C3_counterexample :
    parse_event_response [("_embedded", Json.num 0)] = none := by
  rfl

/-- C3 amended: provided link extraction does not panic (which
`parse_event_response` runs first), a document with `_embedded` absent, or
with `_embedded` an object lacking `events`, yields the domain-specific
parse error and no partial result; and a document whose `_embedded.events`
is an array whose entries all parse yields `Ok` with the parsed page.
(A present non-object `_embedded`, a present non-array `events`, or a
failing entry panics instead — see the counterexample.) -/
theorem C3_parse_event_response_amended (doc : List (String × Json))
    (pages : Option String × Option String)
    (hl : parse_links (mapGet doc "_links") = some pages) :
    (mapGet doc "_embedded" = none →
      parse_event_response doc =
        some (.error (TicketMasterError.new (some EVENT_PARSE_ERROR)))) ∧
    (∀ kvs, mapGet doc "_embedded" = some (Json.obj kvs) →
      mapGet kvs "events" = none →
      parse_event_response doc =
        some (.error (TicketMasterError.new (some EVENT_PARSE_ERROR)))) ∧
    (∀ kvs l evs, mapGet doc "_embedded" = some (Json.obj kvs) →
      mapGet kvs "events" = some (Json.arr l) →
      parse_events_array l = some evs →
      parse_event_response doc = some (.ok ⟨pages.1, pages.2, evs⟩)) := by
  refine ⟨?_, ?_, ?_⟩
  · intro he
    simp [parse_event_response, hl, he, Option.bind]
  · intro kvs he hev
    simp [parse_event_response, hl, he, hev, Json.asObj, Option.bind]
  · intro kvs l evs he hev hpa
    simp [parse_event_response, hl, he, hev, hpa, Json.asObj, Json.asArr,
      Option.bind]

/-- Witness for C3 amended at three concrete documents: `_embedded`
absent, `_embedded` an object without `events`, and a well-formed
`_embedded.events` array. -/
theorem C3_parse_event_response_amended_witness :
    parse_event_response [] =
      some (.error (TicketMasterError.new (some EVENT_PARSE_ERROR))) ∧
    parse_event_response [("_embedded", Json.obj [])] =
      some (.error (TicketMasterError.new (some EVENT_PARSE_ERROR))) ∧
    parse_event_response [("_embedded", Json.obj [("events", Json.arr [])])] =
      some (.ok ⟨none, none, []⟩) := by
  refine ⟨(C3_parse_event_response_amended [] (none, none) rfl).1 rfl,
    (C3_parse_event_response_amended [("_embedded", Json.obj [])]
      (none, none) rfl).2.1 [] rfl rfl,
    (C3_parse_event_response_amended
      [("_embedded", Json.obj [("events", Json.arr [])])]
      (none, none) rfl).2.2 [("events", Json.arr [])] [] [] rfl rfl rfl⟩

/-- Helper: when no entry of the `images` array panics, the image loop is
the order-preserving `filterMap` of the per-entry parse. -/
theorem parseImagesLoop_eq_filterMap (l : List Json)
    (h : ∀ i ∈ l, (parseOneImage i).isSome) :
    parseImagesLoop l =
      some (l.filterMap (fun i => (parseOneImage i).getD none)) := by
  induction l with
  | nil => rfl
  | cons i rest ih =>
    have hi := h i (by simp)
    have hrest := ih (fun j hj => h j (by simp [hj]))
    cases hpi : parseOneImage i with
    | none => rw [hpi] at hi; simp at hi
    | some entry =>
      rw [parseImagesLoop, hpi, hrest]
      cases entry <;> simp [Option.bind, List.filterMap_cons, hpi]

/-- C5 counterexample: the claim states that for every event object each
`images` entry that has a `url` field contributes exactly one image.  At
the concrete event `{"images": [{"url": 5}]}` the single entry has a `url`
field, yet the source panics on `as_str().unwrap()` (modelled `none`)
rather than returning any sequence. -/
theorem C5_counterexample :
    parse_event_images
      (Json.obj [("images", Json.arr [Json.obj [("url", Json.num 5)]])]) =
      none := by
  rfl

/-- C5 amended: an absent `images` key yields the empty sequence; when
`images` is an array none of whose entries panics, the result is, in input
order, exactly one image per entry whose `url` field is present (with a
string value), and every entry lacking a `url` field is silently skipped;
width and height are carried as optional integers (`i64` truncated to
`u32`).  An entry whose `url` is present but not a string — or whose
`width`/`height` is present but not an integer, or a non-array `images`
value — panics instead (see the counterexample). -/
theorem C5_parse_event_images_amended (ev : Json) :
    (ev.jget "images" = none → parse_event_images ev = some []) ∧
    (∀ l, ev.jget "images" = some (Json.arr l) →
      (∀ i ∈ l, (parseOneImage i).isSome) →
      parse_event_images ev =
        some (l.filterMap (fun i => (parseOneImage i).getD none))) ∧
    (∀ i, i.jget "url" = none → parseOneImage i = some none) ∧
    (∀ i s, i.jget "url" = some (Json.str s) → i.jget "width" = none →
      i.jget "height" = none →
      parseOneImage i = some (some ⟨s, none, none⟩)) ∧
    (∀ i s w h, i.jget "url" = some (Json.str s) →
      i.jget "width" = some (Json.num w) →
      i.jget "height" = some (Json.num h) →
      parseOneImage i =
        some (some ⟨s, some (i64AsU32 w), some (i64AsU32 h)⟩)) := by
  refine ⟨?_, ?_, ?_, ?_, ?_⟩
  · intro h
    simp [parse_event_images, h]
  · intro l hl hall
    simp [parse_event_images, hl, Json.asArr, Option.bind,
      parseImagesLoop_eq_filterMap l hall]
  · intro i h
    simp [parseOneImage, h]
  · intro i s hu hw hh
    simp [parseOneImage, hu, hw, hh, Json.asStr, Option.bind]
  · intro i s w h hu hw hh
    simp [parseOneImage, hu, hw, hh, Json.asStr, Json.asI64, Option.bind]

/-- Witness for C5 amended at the spec's scenario input
`{"images": [{"url": "http://i1"}, {"width": 10}]}`: the entry lacking a
`url` is skipped, the other contributes one image. -/
theorem C5_parse_event_images_amended_witness :
    parse_event_images
      (Json.obj [("images", Json.arr [Json.obj [("url", Json.str "http://i1")],
        Json.obj [("width", Json.num 10)]])]) =
      some [{ link := "http://i1", width := none, height := none }] := by
  have h := (C5_parse_event_images_amended
    (Json.obj [("images", Json.arr [Json.obj [("url", Json.str "http://i1")],
      Json.obj [("width", Json.num 10)]])])).2.1
    [Json.obj [("url", Json.str "http://i1")], Json.obj [("width", Json.num 10)]]
    rfl (by intro i hi
            simp only [List.mem_cons, List.not_mem_nil, or_false] at hi
            rcases hi with rfl | rfl <;> rfl)
  exact h.trans rfl

/-- C6: for both the `start` and `end` fields of every parsed event, the
extracted timestamp is the `dates.<field>.dateTime` string when that key
is present (even when `localDate` is also present), otherwise the
`dates.<field>.localDate` string when present, otherwise `None`; the
chosen string is carried through verbatim.  The first conjunct ties the
`Event` fields to the extraction function; the rest state the selection
policy. -/
theorem C6_date_extraction (event : Json) :
    (∀ e, parseEvent event = some e →
      parseDateField event "start" = some e.start ∧
      parseDateField event "end" = some e.end_) ∧
    (event.jget "dates" = none →
      ∀ f, parseDateField event f = some none) ∧
    (∀ f dates, event.jget "dates" = some dates → dates.jget f = none →
      parseDateField event f = some none) ∧
    (∀ f dates sub s, event.jget "dates" = some dates →
      dates.jget f = some sub → sub.jget "dateTime" = some (Json.str s) →
      parseDateField event f = some (some s)) ∧
    (∀ f dates sub s, event.jget "dates" = some dates →
      dates.jget f = some sub → sub.jget "dateTime" = none →
      sub.jget "localDate" = some (Json.str s) →
      parseDateField event f = some (some s)) ∧
    (∀ f dates sub, event.jget "dates" = some dates →
      dates.jget f = some sub → sub.jget "dateTime" = none →
      sub.jget "localDate" = none →
      parseDateField event f = some none) := by
  refine ⟨?_, ?_, ?_, ?_, ?_, ?_⟩
  · intro e he
    simp only [parseEvent, Option.bind_eq_bind, Option.bind_eq_some,
      Option.pure_def, Option.some.injEq] at he
    obtain ⟨name, hn, id, hi, url, hu, description, hd, addl, ha, start, hs,
      end_, hend, info, hinfo, pn, hpn, loc, hloc, images, himgs, heq⟩ := he
    subst heq
    exact ⟨hs, hend⟩
  · intro h f
    simp [parseDateField, h]
  · intro f dates hd hf
    simp [parseDateField, hd, hf]
  · intro f dates sub s hd hf hdt
    simp [parseDateField, hd, hf, hdt, Json.asStr]
  · intro f dates sub s hd hf hdt hld
    simp [parseDateField, hd, hf, hdt, hld, Json.asStr]
  · intro f dates sub hd hf hdt hld
    simp [parseDateField, hd, hf, hdt, hld]

/-- Witness for C6 at concrete inputs: an event whose `start` has both
`dateTime` and `localDate` (the former wins, carried verbatim) and whose
`end` has only `localDate`; plus the policy conjuncts at the matching
sub-objects. -/
theorem C6_date_extraction_witness :
    parseDateField
      (Json.obj [("dates", Json.obj
        [("start", Json.obj [("dateTime", Json.str "2023-05-01T20:00:00Z"),
          ("localDate", Json.str "2023-05-01")]),
         ("end", Json.obj [("localDate", Json.str "2023-05-02")])])])
      "start" = some (some "2023-05-01T20:00:00Z") ∧
    parseDateField
      (Json.obj [("dates", Json.obj
        [("start", Json.obj [("dateTime", Json.str "2023-05-01T20:00:00Z"),
          ("localDate", Json.str "2023-05-01")]),
         ("end", Json.obj [("localDate", Json.str "2023-05-02")])])])
      "end" = some (some "2023-05-02") ∧
    parseDateField (Json.obj [("name", Json.str "Show")]) "start" =
      some none := by
  refine ⟨?_, ?_, ?_⟩
  · exact (C6_date_extraction _).2.2.2.1 "start" _ _ "2023-05-01T20:00:00Z"
      rfl rfl rfl
  · exact (C6_date_extraction _).2.2.2.2.1 "end" _ _ "2023-05-02"
      rfl rfl rfl rfl
  · exact (C6_date_extraction (Json.obj [("name", Json.str "Show")])).2.1
      rfl "start"

/-- C7: for every combination of template-engine outcomes, a
`render_template_ctx` call terminates in a pair whose status is exactly
200 or 500 — no failure of environment acquisition, template lookup,
rendering, or of the internal-error template itself escapes the boundary —
and in a production (non-debug) build every 500 body is one of two fixed
pages, neither of which embeds the underlying error message. -/
theorem C7_render_template_boundary (debug : Bool) (o : TemplateOracle) :
    ((render_template_ctx debug o).1 = 200 ∨
      (render_template_ctx debug o).1 = 500) ∧
    (debug = false → (render_template_ctx debug o).1 = 500 →
      (render_template_ctx debug o).2 = ERROR_500_PROD ∨
      (render_template_ctx debug o).2 = INTERNAL_ERROR_PAGE_PROD) := by
  obtain ⟨acq, mf, mm, mr, ef, em, ero, erm⟩ := o
  cases acq <;> cases mf <;> cases mr <;> cases ef <;> cases ero <;>
    cases debug <;>
    simp [render_template_ctx, get_error_500, internal_error,
      renderInternalErrorTemplate]

/-- Witness for C7: in a production build, a failed template lookup whose
`internal_error.j2` fallback renders yields status 500 with one of the two
fixed production pages. -/
theorem C7_render_template_boundary_witness :
    ((render_template_ctx false
        ⟨true, false, "missing template index.j2", .error "unused",
          true, "unused", true, "unused"⟩).1 = 200 ∨
      (render_template_ctx false
        ⟨true, false, "missing template index.j2", .error "unused",
          true, "unused", true, "unused"⟩).1 = 500) ∧
    ((render_template_ctx false
        ⟨true, false, "missing template index.j2", .error "unused",
          true, "unused", true, "unused"⟩).2 = ERROR_500_PROD ∨
      (render_template_ctx false
        ⟨true, false, "missing template index.j2", .error "unused",
          true, "unused", true, "unused"⟩).2 = INTERNAL_ERROR_PAGE_PROD) := by
  refine ⟨(C7_render_template_boundary false _).1, ?_⟩
  exact (C7_render_template_boundary false
    ⟨true, false, "missing template index.j2", .error "unused",
      true, "unused", true, "unused"⟩).2 rfl rfl
